import Mathlib

/-!
Shallow embedding of the patched-source subsystem of this cargo branch,
covering manifest validation (`src/cargo/util/toml/mod.rs`,
`patched_source_id`), the patched source adapter
(`src/cargo/sources/patched.rs`), the unified-diff applier
(`src/cargo/util/patch.rs`) and the stable hasher
(`src/cargo/util/hasher.rs`).

Rust `PathBuf` values are modelled as `FsPath`: an absoluteness flag plus a
list of components.  Machine integers (`u64`) are modelled as `Nat` with
explicit `% 2 ^ 64` at each wrapping operation.  Fallible Rust functions
returning `CargoResult` are modelled with `Except`.
-/

namespace PatchedCargo

/-- Model of a filesystem path: `absolute` tells whether the path starts at
the root, `comps` are the normal components in order.  Mirrors the subset of
`std::path::PathBuf` behaviour the patched-source code relies on. -/
structure FsPath where
  absolute : Bool
  comps : List String
deriving DecidableEq, Repr

/-- Model of `PathBuf::join`: joining with an absolute path replaces the
receiver, joining with a relative path appends its components. -/
def FsPath.join (p q : FsPath) : FsPath :=
  if q.absolute then q else ⟨p.absolute, p.comps ++ q.comps⟩

/-- Whether `base` is a leading run of components of `l`
(component-wise, as `Path::strip_prefix` requires). -/
def leadsWith : List String → List String → Bool
  | [], _ => true
  | _ :: _, [] => false
  | b :: bs, a :: as' => b == a && leadsWith bs as'

/-- Model of `Path::strip_prefix(base)`: succeeds iff the absoluteness
matches and `base`'s components lead the path's components; the result is the
relative remainder. -/
def FsPath.stripBase (p base : FsPath) : Option FsPath :=
  if p.absolute == base.absolute && leadsWith base.comps p.comps then
    some ⟨false, p.comps.drop base.comps.length⟩
  else
    none

/-- Component normalization of `cargo_util::paths::normalize_path`:
`.` components are dropped and `..` pops the previously collected
component (a no-op at the top, as `Vec::pop` on an empty vector).
`acc` holds the already-processed components most-recent first. -/
def normalizeComps : List String → List String → List String
  | acc, [] => acc.reverse
  | acc, c :: rest =>
    if c == "." then normalizeComps acc rest
    else if c == ".." then normalizeComps acc.tail rest
    else normalizeComps (c :: acc) rest

/-- Model of `cargo_util::paths::normalize_path`. -/
def normalize_path (p : FsPath) : FsPath :=
  ⟨p.absolute, normalizeComps [] p.comps⟩

/-! ## Manifest validation (`src/cargo/util/toml/mod.rs`) -/

/-- The source kinds relevant to the patched-source subsystem (the real
`SourceKind` also has `LocalRegistry` and `Directory` variants, unused
here).  A `git` source carries its optional precise revision fragment, a
`patched` source carries the patch checksum. -/
inductive SourceKind where
  | registry
  | sparseRegistry
  | git (rev : Option String)
  | path
  | patched (cksum : String)
deriving DecidableEq, Repr

/-- A source identifier: its kind plus its URL string. -/
structure SourceId where
  kind : SourceKind
  url : String
deriving DecidableEq, Repr

/-- Model of `SourceId::is_registry`: true exactly for (sparse) registry
sources. -/
def SourceId.is_registry (s : SourceId) : Bool :=
  match s.kind with
  | .registry => true
  | .sparseRegistry => true
  | _ => false

/-- How `patched_source_id` stores one declared patch path
(`src/cargo/util/toml/mod.rs:1991-2000`): resolve against the manifest
root, then keep it relative to `gctx.cwd()` when the strip succeeds,
otherwise normalize the absolute path. -/
def store_patch_path (root cwd : FsPath) (path : FsPath) : FsPath :=
  let path := root.join path
  match path.stripBase cwd with
  | some rel => rel
  | none => normalize_path path

/-- The patch-info record built by manifest validation: package name, exact
version, and the stored patch paths (model of
`cargo_util_schemas::core::PatchInfo`). -/
structure PatchInfo where
  name : String
  version : String
  patches : List FsPath
deriving DecidableEq, Repr

/-- The error cases `patched_source_id` can raise with `bail!`. -/
inductive PatchErr where
  | registryRequired
  | mismatchedSource
  | nonExactVersion
  | emptyPatchList
deriving DecidableEq, Repr

/-- Embedding of `patched_source_id` (`src/cargo/util/toml/mod.rs:1934-2013`).

* `patch_source_url` is the `(url, feature-enabled)` pair passed by the
  caller; `orig_patches`/`orig_version` are the raw manifest fields.
* `dep_source_id` is the dependency's resolved source id;
  `dep_version_locked`/`dep_version_is_exact` model
  `dep.version_req().locked_version()` and `.is_exact()`.
* `canonical_url_eq` models `&CanonicalUrl::new(url)? == source_id.canonical_url()`
  and `semver_parse` models `str::parse::<semver::Version>().ok()` —
  both live outside the translated unit.

Returns `none` for the three arms that do not create a patched source, and
the built `PatchInfo` otherwise. -/
def patched_source_id (patch_source_url : Option (String × Bool))
    (orig_patches : Option (List FsPath)) (orig_version : Option String)
    (dep_source_id : SourceId)
    (dep_version_locked : Option String) (dep_version_is_exact : Bool)
    (canonical_url_eq : Bool) (semver_parse : String → Option String)
    (root cwd : FsPath) (pkg_name : String) :
    Except PatchErr (Option PatchInfo) :=
  match patch_source_url, orig_patches with
  | _, none => .ok none
  | none, some _ => .ok none
  | some (_, false), some _ => .ok none
  | some (_, true), some patches =>
    if !dep_source_id.is_registry then
      .error .registryRequired
    else if !canonical_url_eq then
      .error .mismatchedSource
    else
      let version : Option String :=
        match dep_version_locked with
        | some v => some v
        | none =>
          if dep_version_is_exact then
            (orig_version.map (fun v => ((v.drop 1).trim))).bind semver_parse
          else
            none
      match version with
      | none => .error .nonExactVersion
      | some version =>
        let patches := patches.map (store_patch_path root cwd)
        if patches.isEmpty then
          .error .emptyPatchList
        else
          .ok (some ⟨pkg_name, version, patches⟩)

/-- How `PatchedSource::apply_patches`
(`src/cargo/sources/patched.rs:213`) resolves a stored patch path before
applying it: `self.gctx.cwd().join(patch_file)`. -/
def apply_patches_resolve (cwd : FsPath) (patch_file : FsPath) : FsPath :=
  cwd.join patch_file

/-! ## Patch registry and adapter construction
(`src/cargo/sources/patched.rs`) -/

/-- The process-wide patch registry: a mapping from patch checksum to the
stored patch-path list.  The `GlobalContext` side of the registry is not
among the translated sources, so the mapping is kept as an association
list. -/
abbrev PatchRegistry : Type := List (String × List FsPath)

/-- Model of `GlobalContext::get_patch_paths(cksum)`: look the checksum up
in the registry. -/
def get_patch_paths (reg : PatchRegistry) (cksum : String) :
    Option (List FsPath) :=
  (reg.find? (fun e => e.1 == cksum)).map (fun e => e.2)

/-- Modelled from the spec: the Patch Registry `register` operation (§4.C) —
"compute the digest of ordered file contents, insert if absent, return the
digest" — whose `GlobalContext` implementation is not among the translated
sources.  The digest itself is supplied by `cksum` (an external hashing
primitive per §1). -/
def register (reg : PatchRegistry) (cksum : String) (paths : List FsPath) :
    PatchRegistry :=
  match get_patch_paths reg cksum with
  | some _ => reg
  | none => (cksum, paths) :: reg

/-- A registry is well formed when every registered patch-path list is
non-empty (what manifest validation guarantees, since it bails on an empty
`patches` list before registering). -/
def RegistryWF (reg : PatchRegistry) : Prop :=
  ∀ e ∈ reg, e.2 ≠ ([] : List FsPath)

/-- The state of a `PatchedSource` adapter after a successful
`PatchedSource::new`: the patched source id and the patch-path list fetched
from the registry (`src/cargo/sources/patched.rs:81-91`; the inner source
handle and the package cache are behavioural and modelled where needed). -/
structure PatchedSource where
  source_id : SourceId
  patch_paths : List FsPath
deriving DecidableEq, Repr

/-- Embedding of `PatchedSource::new` (`src/cargo/sources/patched.rs:94-123`):
requires a `Patched` source kind, then fetches the patch paths registered
for its checksum, failing with the "no patch files registered" error (which
truncates the checksum to at most 8 characters) when the lookup misses. -/
def PatchedSource.new (reg : PatchRegistry) (patched_source_id : SourceId) :
    Except String PatchedSource :=
  match patched_source_id.kind with
  | .patched cksum =>
    match get_patch_paths reg cksum with
    | none =>
      .error ("no patch files registered for checksum `" ++
        cksum.take (min cksum.length 8) ++ "`")
    | some patch_paths => .ok ⟨patched_source_id, patch_paths⟩
  | _ => .error "must be patched source kind"

/-- The assertion guarding `PatchedSource::apply_patches`
(`src/cargo/sources/patched.rs:204`):
`assert!(!patch_files.is_empty(), "must have at least one patch")`. -/
def apply_patches_assert (src : PatchedSource) : Bool :=
  !src.patch_paths.isEmpty

/-! ## Cache materialization (`PatchedSource::download_and_patch`,
`src/cargo/sources/patched.rs:125-166`) -/

/-- Filesystem write operations performed by `download_and_patch` on the
cache entry, in order: removing a stale directory, copying the source tree
(`copy_pkg_src`), applying the `i`-th patch file, and writing the
`.cargo-ok` completion marker. -/
inductive FsOp where
  | remove_dir_all
  | copy_tree
  | apply_patch (i : Nat)
  | write_marker
deriving DecidableEq, Repr

/-- The observable state of the cache entry when `download_and_patch`
starts: whether `dst/.cargo-ok` exists and whether `dst` exists. -/
structure CacheDirState where
  marker_exists : Bool
  dst_exists : Bool
deriving DecidableEq, Repr

/-- The outcome of the externally-performed steps of a materialization:
whether the tree copy succeeds and, per patch file in order, whether
`apply_patch_file` succeeds. -/
structure MaterializeEnv where
  copy_ok : Bool
  patch_ok : List Bool
deriving DecidableEq, Repr

/-- Trace of the patch-application loop of `PatchedSource::apply_patches`
(`src/cargo/sources/patched.rs:209-215`): patches are applied in order and
the first failure aborts the loop.  Returns the operations performed and
whether all patches succeeded. -/
def apply_patches_trace : Nat → List Bool → List FsOp × Bool
  | _, [] => ([], true)
  | i, ok :: rest =>
    if ok then
      let t := apply_patches_trace (i + 1) rest
      (.apply_patch i :: t.1, t.2)
    else ([.apply_patch i], false)

/-- Trace of the rebuild steps `copy_pkg_src`; `apply_patches`;
`paths::write(&ready_lock, "")` (`src/cargo/sources/patched.rs:154-157`):
the tree is copied, the patches are applied in order, and — only when every
step succeeded — the marker is written, last. -/
def materialize_trace (env : MaterializeEnv) : List FsOp × Bool :=
  if env.copy_ok then
    let t := apply_patches_trace 0 env.patch_ok
    if t.2 then
      (.copy_tree :: t.1 ++ [.write_marker], true)
    else
      (.copy_tree :: t.1, false)
  else
    ([.copy_tree], false)

/-- Trace semantics of the cache-entry branch of
`PatchedSource::download_and_patch` (`src/cargo/sources/patched.rs:150-158`):
if the marker exists nothing is written; otherwise a stale `dst` is removed
first and the entry is rebuilt by `materialize_trace`.  Returns the write
operations performed and overall success. -/
def download_and_patch_trace (st : CacheDirState) (env : MaterializeEnv) :
    List FsOp × Bool :=
  if st.marker_exists then
    ([], true)
  else
    let m := materialize_trace env
    ((if st.dst_exists then [.remove_dir_all] else []) ++ m.1, m.2)

/-- Embedding of `PatchedSource::patched_src_dir`
(`src/cargo/sources/patched.rs:224-249`) as the list of path components
appended under the patched-src root.  `host` models
`source_id.url().host_str()`, `hash` the `hex::short_hash(&source_id)`
digest, `rev` the `precise_git_fragment()` of a git source, and `cksum` the
full patch checksum (truncated here to `min (len, 8)` characters exactly as
the code does). -/
def patched_src_dir (host : Option String) (hash : String)
    (rev : Option String) (name version : String) (cksum : String)
    (is_git : Bool) : List String :=
  let ident := host.getD ""
  let cksum := cksum.take (min cksum.length 8)
  if is_git then
    [ident ++ "-" ++ hash ++ "-" ++ rev.getD "HEAD" ++ "-" ++ cksum]
  else
    [ident ++ "-" ++ hash, name ++ "-" ++ version, cksum]

/-- The full result of one `download_and_patch` cache interaction: the
destination path (computed purely by `patched_src_dir`), the write
operations performed, and success.  The destination depends only on the
`(inner source, package, checksum)` data, never on the cache state. -/
def download_and_patch (host : Option String) (hash : String)
    (rev : Option String) (name version : String) (cksum : String)
    (is_git : Bool) (st : CacheDirState) (env : MaterializeEnv) :
    List String × List FsOp × Bool :=
  let dst := patched_src_dir host hash rev name version cksum is_git
  let t := download_and_patch_trace st env
  (dst, t.1, t.2)

/-! ## Remaining `Source` operations of the adapter -/

/-- Embedding of `PatchedSource::fingerprint`
(`src/cargo/sources/patched.rs:360-365`): delegate to the inner source's
fingerprint and append `/` followed by the full patch checksum. -/
def fingerprint {Pkg : Type} (inner_fingerprint : Pkg → Except String String)
    (cksum : String) (pkg : Pkg) : Except String String :=
  match inner_fingerprint pkg with
  | .error e => .error e
  | .ok f => .ok (f ++ "/" ++ cksum)

/-- The fingerprint format the spec prescribes:
`inner.fingerprint(pkg) + "/" + full_cksum`. -/
def spec_fingerprint (inner_fp full_cksum : String) : String :=
  inner_fp ++ "/" ++ full_cksum

/-- The resolver's poll-style readiness result. -/
inductive Poll (α : Type) where
  | ready (a : α)
  | pending
deriving DecidableEq, Repr

/-- Embedding of the summary-count check of `PatchedSource::query`
(`src/cargo/sources/patched.rs:311-319`): propagate `Pending` and inner
errors exactly; when the inner source is ready with a summary list whose
length is not exactly one, fail with the error the code actually builds,
`anyhow::format_err!("!!!!!!!!!!!!")`.  (The per-summary
`download_and_patch` drive is modelled separately.) -/
def query_summaries {S : Type}
    (inner_result : Poll (Except String (List S))) :
    Poll (Except String (List S)) :=
  match inner_result with
  | .pending => .pending
  | .ready (.error e) => .ready (.error e)
  | .ready (.ok summaries) =>
    if summaries.length ≠ 1 then .ready (.error "!!!!!!!!!!!!")
    else .ready (.ok summaries)

/-! ## Unified-diff applier (`src/cargo/util/patch.rs`) -/

/-- Left-to-right, non-overlapping replacement of the two-character
sequence CR LF by LF, as `str::replace("\r\n", "\n")` performs on the
patch text. -/
def crlfToLf : List Char → List Char
  | [] => []
  | '\r' :: '\n' :: rest => '\n' :: crlfToLf rest
  | c :: rest => c :: crlfToLf rest

/-- CRLF normalization on strings
(`src/cargo/util/patch.rs:29`). -/
def crlf_to_lf (s : String) : String :=
  ⟨crlfToLf s.data⟩

/-- Embedding of `apply_patch_file` (`src/cargo/util/patch.rs:26-70`).
The parse (`diffy::PatchSet::from_str`, including its preamble and
signature stripping) and the per-file application loop are supplied by the
external `diffy` crate and are abstracted as the `parse` and `apply_ops`
arguments; everything this unit itself does — CRLF normalization, the
empty-patchset check with its exact error message, and the dispatch to the
loop — is translated.  `patch_file` is the displayed path, `patch_content`
the bytes read from it. -/
def apply_patch_file {P : Type}
    (parse : String → Except String (List P))
    (apply_ops : List P → Except String Unit)
    (patch_file : String) (patch_content : String) : Except String Unit :=
  let patch_content := crlf_to_lf patch_content
  match parse patch_content with
  | .error e => .error e
  | .ok patchset =>
    if patchset.isEmpty then
      .error ("no valid patches found in `" ++ patch_file ++ "`")
    else
      apply_ops patchset

/-! ## Stable hasher (`src/cargo/util/hasher.rs`) -/

/-- Host byte order, the platform parameter `u64::from_ne_bytes` and
`u64::to_le` depend on. -/
inductive ByteOrder where
  | le
  | be
deriving DecidableEq, Repr

/-- A `u64` from 8 bytes in little-endian order (byte 0 least
significant). -/
def from_le_bytes : List Nat → Nat
  | [] => 0
  | b :: rest => b + 256 * from_le_bytes rest

/-- Model of `u64::from_ne_bytes`: little-endian hosts read the bytes
little-endian, big-endian hosts read them big-endian. -/
def from_ne_bytes (bo : ByteOrder) (bs : List Nat) : Nat :=
  match bo with
  | .le => from_le_bytes bs
  | .be => from_le_bytes bs.reverse

/-- The `i`-th byte of a 64-bit value. -/
def u64_byte (x i : Nat) : Nat := x / 256 ^ i % 256

/-- Model of `u64::swap_bytes`. -/
def swap_bytes64 (x : Nat) : Nat :=
  from_le_bytes ((List.range 8).map (u64_byte x)).reverse

/-- Model of `u64::to_le`: the identity on little-endian hosts, a byte swap
on big-endian hosts. -/
def u64_to_le (bo : ByteOrder) (x : Nat) : Nat :=
  match bo with
  | .le => x
  | .be => swap_bytes64 x

/-- Embedding of the blake3 `StableHasher`'s `Hasher::finish`
(`src/cargo/util/hasher.rs:65-78`), parameterized by the host byte order:
the 32 digest bytes (platform-independent output of blake3) are split into
four `u64` words with `from_ne_bytes`, combined with wrapping arithmetic
`p0 * 3 + p1 + p2` then `* p3`, and the result passed through `to_le`. -/
def blake3_finish (bo : ByteOrder) (digest : List Nat) : Nat :=
  let p0 := from_ne_bytes bo (digest.take 8)
  let p1 := from_ne_bytes bo ((digest.drop 8).take 8)
  let p2 := from_ne_bytes bo ((digest.drop 16).take 8)
  let p3 := from_ne_bytes bo ((digest.drop 24).take 8)
  u64_to_le bo ((((p0 * 3) % 2 ^ 64 + p1) % 2 ^ 64 + p2) % 2 ^ 64 * p3 % 2 ^ 64)

/-- A 32-byte digest on which the two byte orders disagree: byte 0 and
byte 24 are 1, the rest 0. -/
def digestSample : List Nat :=
  [1, 0, 0, 0, 0, 0, 0, 0,
   0, 0, 0, 0, 0, 0, 0, 0,
   0, 0, 0, 0, 0, 0, 0, 0,
   1, 0, 0, 0, 0, 0, 0, 0]

/-! ## Helper lemmas -/

/-- The patch-application loop never writes the completion marker. -/
theorem apply_patches_trace_no_marker (i : Nat) (l : List Bool) :
    FsOp.write_marker ∉ (apply_patches_trace i l).1 := by
  induction l generalizing i with
  | nil => simp [apply_patches_trace]
  | cons b rest ih =>
    by_cases hb : b
    · simpa [apply_patches_trace, hb] using ih (i + 1)
    · simp [apply_patches_trace, hb]

/-- The patch-application loop succeeds iff every patch succeeds. -/
theorem apply_patches_trace_ok (i : Nat) (l : List Bool) :
    (apply_patches_trace i l).2 = true ↔ l.all id = true := by
  induction l generalizing i with
  | nil => simp [apply_patches_trace]
  | cons b rest ih =>
    by_cases hb : b <;> simp [apply_patches_trace, hb, ih]

/-- A rebuild trace always begins by copying the tree. -/
theorem materialize_trace_head (env : MaterializeEnv) :
    ∃ rest, (materialize_trace env).1 = FsOp.copy_tree :: rest := by
  unfold materialize_trace
  by_cases hc : env.copy_ok
  · by_cases hp : (apply_patches_trace 0 env.patch_ok).2 <;> simp [hc, hp]
  · simp [hc]

/-- A rebuild trace contains the marker iff it succeeded. -/
theorem materialize_trace_marker (env : MaterializeEnv) :
    FsOp.write_marker ∈ (materialize_trace env).1 ↔
      (materialize_trace env).2 = true := by
  unfold materialize_trace
  by_cases hc : env.copy_ok
  · by_cases hp : (apply_patches_trace 0 env.patch_ok).2 <;>
      simp [hc, hp, apply_patches_trace_no_marker]
  · simp [hc]

/-- A rebuild succeeds iff the copy and every patch succeed. -/
theorem materialize_trace_ok (env : MaterializeEnv) :
    (materialize_trace env).2 = true ↔
      env.copy_ok = true ∧ env.patch_ok.all id = true := by
  rw [← apply_patches_trace_ok 0 env.patch_ok]
  unfold materialize_trace
  by_cases hc : env.copy_ok
  · by_cases hp : (apply_patches_trace 0 env.patch_ok).2 <;> simp [hc, hp]
  · simp [hc]

/-- On success the marker is the last operation of a rebuild trace, and it
occurs nowhere earlier. -/
theorem materialize_trace_marker_last (env : MaterializeEnv)
    (h : (materialize_trace env).2 = true) :
    ∃ t, (materialize_trace env).1 = t ++ [FsOp.write_marker] ∧
      FsOp.write_marker ∉ t := by
  unfold materialize_trace at h ⊢
  by_cases hc : env.copy_ok
  · by_cases hp : (apply_patches_trace 0 env.patch_ok).2
    · refine ⟨.copy_tree :: (apply_patches_trace 0 env.patch_ok).1, ?_, ?_⟩
      · simp [hc, hp]
      · simp [apply_patches_trace_no_marker]
    · simp [hc, hp] at h
  · simp [hc] at h

/-- A registered lookup on a well-formed registry yields a non-empty
patch-path list. -/
theorem get_patch_paths_wf {reg : PatchRegistry} {cksum : String}
    {ps : List FsPath} (hwf : RegistryWF reg)
    (h : get_patch_paths reg cksum = some ps) : ps ≠ [] := by
  unfold get_patch_paths at h
  cases hf : reg.find? (fun e => e.1 == cksum) with
  | none => simp [hf] at h
  | some e =>
    simp [hf] at h
    exact h ▸ hwf e (List.mem_of_find?_eq_some hf)

/-! ## Claim theorems -/

/-- Claim C1: the claim states that a `[patch]` entry declaring `patches`
together with `git = …` is accepted by manifest validation.  The code
instead rejects it: evaluating `patched_source_id` on a git-sourced patch
entry (feature enabled, matching canonical URL, exact version `=1.0.0`,
one patch file) hits the `!source_id.is_registry()` bail and returns the
"requires a registry source" error, so no `Patched` identifier wrapping the
git source is ever produced. -/
theorem c1_git_patch_rejected :
    patched_source_id
      (some ("https://github.com/rust-lang/crates.io-index", true))
      (some [⟨false, ["patches", "hello.patch"]⟩]) (some "=1.0.0")
      ⟨.git (some "abc123"), "https://github.com/foo/bar"⟩
      none true true (fun v => some v)
      ⟨true, ["ws"]⟩ ⟨true, ["ws"]⟩ "bar" =
      .error .registryRequired := by
  rfl

/-- Claim C2: the claim states that stored patch paths are workspace-root
relative when inside the workspace, and that the adapter never resolves a
patch path against the current working directory.  The code stores paths
relative to `gctx.cwd()` and resolves them with `gctx.cwd().join(..)`:
with workspace root `/ws`, cwd `/ws/member`, and declared path
`patches/hello.patch` (a file inside the workspace), the stored path is the
absolute `/ws/patches/hello.patch` rather than the workspace-relative form,
and the adapter's resolution of a relative stored path yields different
files for different working directories. -/
theorem c2_patch_path_uses_cwd :
    store_patch_path ⟨true, ["ws"]⟩ ⟨true, ["ws", "member"]⟩
        ⟨false, ["patches", "hello.patch"]⟩ =
      ⟨true, ["ws", "patches", "hello.patch"]⟩
    ∧ store_patch_path ⟨true, ["ws"]⟩ ⟨true, ["ws", "member"]⟩
        ⟨false, ["patches", "hello.patch"]⟩ ≠
      ⟨false, ["patches", "hello.patch"]⟩
    ∧ apply_patches_resolve ⟨true, ["ws"]⟩ ⟨false, ["patches", "hello.patch"]⟩ ≠
      apply_patches_resolve ⟨true, ["ws", "member"]⟩
        ⟨false, ["patches", "hello.patch"]⟩ := by
  refine ⟨rfl, ?_, ?_⟩ <;> decide

/-- Claim C3: in every materialization trace, the `.cargo-ok` marker is
written only when the tree copy and every patch application succeeded, and
then as the very last operation; when the marker is absent, an existing
destination directory is removed first, and the tree is rebuilt (a copy
occurs) before any marker write. -/
theorem c3_marker_last_discipline (st : CacheDirState) (env : MaterializeEnv) :
    (FsOp.write_marker ∈ (download_and_patch_trace st env).1 →
      env.copy_ok = true ∧ env.patch_ok.all id = true ∧
      ∃ t, (download_and_patch_trace st env).1 = t ++ [FsOp.write_marker] ∧
        FsOp.write_marker ∉ t)
    ∧ (st.marker_exists = false → st.dst_exists = true →
      (download_and_patch_trace st env).1.head? = some FsOp.remove_dir_all)
    ∧ (st.marker_exists = false →
      FsOp.copy_tree ∈ (download_and_patch_trace st env).1) := by
  unfold download_and_patch_trace
  by_cases hm : st.marker_exists
  · simp [hm]
  · refine ⟨?_, ?_, ?_⟩
    · intro hmem
      simp only [hm, if_false] at hmem
      have hmk : FsOp.write_marker ∈ (materialize_trace env).1 := by
        rcases List.mem_append.mp hmem with h | h
        · exfalso
          by_cases hd : st.dst_exists <;> simp [hd] at h
        · exact h
      have hok : (materialize_trace env).2 = true :=
        (materialize_trace_marker env).mp hmk
      obtain ⟨hc, hp⟩ := (materialize_trace_ok env).mp hok
      obtain ⟨t, ht, hnot⟩ := materialize_trace_marker_last env hok
      refine ⟨hc, hp, (if st.dst_exists then [.remove_dir_all] else []) ++ t,
        ?_, ?_⟩
      · simp [hm, ht]
      · intro hin
        rcases List.mem_append.mp hin with h | h
        · by_cases hd : st.dst_exists <;> simp [hd] at h
        · exact hnot h
    · intro _ hd
      obtain ⟨rest, hrest⟩ := materialize_trace_head env
      simp [hm, hd, hrest]
    · intro _
      obtain ⟨rest, hrest⟩ := materialize_trace_head env
      by_cases hd : st.dst_exists <;> simp [hm, hd, hrest]

/-- Witness for C3 at a concrete state: marker absent, stale directory
present, one succeeding patch — the first operation removes the stale
directory. -/
theorem c3_marker_last_discipline_witness :
    (download_and_patch_trace ⟨false, true⟩ ⟨true, [true]⟩).1.head? =
      some FsOp.remove_dir_all :=
  (c3_marker_last_discipline ⟨false, true⟩ ⟨true, [true]⟩).2.1 rfl rfl

/-- Claim C4: the claim states that a query whose inner source is ready
with a summary count different from one fails with an
`AmbiguousPatchTarget` error reading "expected exactly one package for
patched dependency, found N".  The code does return a fatal error on a
two-summary result, but its message is the placeholder `"!!!!!!!!!!!!"`,
not the specified one. -/
theorem c4_placeholder_error :
    query_summaries (S := Nat) (.ready (.ok [1, 2])) =
      .ready (.error "!!!!!!!!!!!!")
    ∧ "!!!!!!!!!!!!" ≠
      "expected exactly one package for patched dependency, found 2" := by
  exact ⟨rfl, by decide⟩

/-- Claim C5: whenever parsing the CRLF-normalized patch text (including the
external parser's preamble/signature stripping) yields zero file hunks,
`apply_patch_file` fails with the "no valid patches found in `<path>`"
error — in particular it never succeeds on such a file. -/
theorem c5_empty_patch_rejected {P : Type}
    (parse : String → Except String (List P))
    (apply_ops : List P → Except String Unit)
    (patch_file patch_content : String)
    (h : parse (crlf_to_lf patch_content) = .ok []) :
    apply_patch_file parse apply_ops patch_file patch_content =
      .error ("no valid patches found in `" ++ patch_file ++ "`")
    ∧ apply_patch_file parse apply_ops patch_file patch_content ≠
      .ok () := by
  refine ⟨?_, ?_⟩ <;> simp [apply_patch_file, h]

/-- Witness for C5 with a concrete empty-result parser. -/
theorem c5_empty_patch_rejected_witness :
    apply_patch_file (P := Unit) (fun _ => .ok []) (fun _ => .ok ())
      "patches/empty.patch" "" =
      .error "no valid patches found in `patches/empty.patch`" :=
  (c5_empty_patch_rejected (P := Unit) (fun _ => .ok []) (fun _ => .ok ())
    "patches/empty.patch" "" rfl).1

/-- Claim C6: when the cache entry's marker is already present, a
materialization call performs zero file writes (its operation trace is
empty), succeeds, and computes the same destination path as any other call
with the identical `(inner, package, checksum)` data. -/
theorem c6_marker_short_circuit (host : Option String) (hash : String)
    (rev : Option String) (name version cksum : String) (is_git : Bool)
    (st st' : CacheDirState) (env env' : MaterializeEnv)
    (h : st.marker_exists = true) :
    (download_and_patch host hash rev name version cksum is_git st env).2.1 = []
    ∧ (download_and_patch host hash rev name version cksum is_git st env).2.2 =
      true
    ∧ (download_and_patch host hash rev name version cksum is_git st env).1 =
      (download_and_patch host hash rev name version cksum is_git st' env').1 := by
  refine ⟨?_, ?_, rfl⟩ <;>
    simp [download_and_patch, download_and_patch_trace, h]

/-- Witness for C6 at a marker-complete entry. -/
theorem c6_marker_short_circuit_witness :
    (download_and_patch (some "github.com") "6d038ece37e82ae2" none "gimli"
      "0.29.0" "a0d193bd15a5ed96" false ⟨true, true⟩ ⟨true, [true]⟩).2.1 = [] :=
  (c6_marker_short_circuit (some "github.com") "6d038ece37e82ae2" none "gimli"
    "0.29.0" "a0d193bd15a5ed96" false ⟨true, true⟩ ⟨false, false⟩
    ⟨true, [true]⟩ ⟨false, []⟩ rfl).1

/-- Claim C7: the patched source's fingerprint is the inner source's
fingerprint of the package, followed by `/`, followed by the full patch
checksum — whose full length (not an 8-character truncation) the result's
length reflects. -/
theorem c7_fingerprint_full_cksum {Pkg : Type}
    (inner_fingerprint : Pkg → Except String String) (cksum : String)
    (pkg : Pkg) (f : String) (h : inner_fingerprint pkg = .ok f) :
    fingerprint inner_fingerprint cksum pkg = .ok (spec_fingerprint f cksum)
    ∧ (spec_fingerprint f cksum).length = f.length + 1 + cksum.length := by
  constructor
  · simp [fingerprint, h, spec_fingerprint]
  · have hsep : "/".length = 1 := rfl
    simp [spec_fingerprint, String.length_append, hsep]

/-- Witness for C7 at a concrete inner fingerprint. -/
theorem c7_fingerprint_full_cksum_witness :
    fingerprint (fun _ : Unit => .ok "registry-fp") "a0d193bd15a5ed96" () =
      .ok (spec_fingerprint "registry-fp" "a0d193bd15a5ed96") :=
  (c7_fingerprint_full_cksum (fun _ : Unit => .ok "registry-fp")
    "a0d193bd15a5ed96" () "registry-fp" rfl).1

/-- Claim C8: for a checksum of at least 8 characters (a full hex digest),
the cache directory is the single per-repository component
`<host>-<hash>-<rev>-<short-cksum>` for a git inner source, and the three
components `<host>-<hash>`, `<name>-<version>`, `<short-cksum>` for a
registry inner source, where the short checksum is the first 8 characters
of the patch checksum. -/
theorem c8_cache_layout (host hash rev name version cksum : String)
    (h : 8 ≤ cksum.length) :
    patched_src_dir (some host) hash (some rev) name version cksum true =
      [host ++ "-" ++ hash ++ "-" ++ rev ++ "-" ++ cksum.take 8]
    ∧ patched_src_dir (some host) hash (some rev) name version cksum false =
      [host ++ "-" ++ hash, name ++ "-" ++ version, cksum.take 8] := by
  have hmin : min cksum.length 8 = 8 := Nat.min_eq_right h
  constructor <;> simp [patched_src_dir, hmin]

/-- Witness for C8 at a 64-character checksum. -/
theorem c8_cache_layout_witness :
    patched_src_dir (some "github.com") "6d038ece37e82ae2" (some "deadbee")
      "gimli" "0.29.0"
      "a0d193bd15a5ed96a0d193bd15a5ed96a0d193bd15a5ed96a0d193bd15a5ed96"
      false =
      ["github.com-6d038ece37e82ae2", "gimli-0.29.0", "a0d193bd"] := by
  have h :=
    (c8_cache_layout "github.com" "6d038ece37e82ae2" "deadbee" "gimli"
      "0.29.0"
      "a0d193bd15a5ed96a0d193bd15a5ed96a0d193bd15a5ed96a0d193bd15a5ed96"
      (by decide)).2
  rw [h]
  decide

/-- Claim C9: the claim states that every shipped stable-hasher
implementation's output is independent of the host byte order.  The blake3
implementation's `Hasher::finish` is not: on the 32-byte digest
`digestSample` a little-endian host returns 3 while a big-endian host
returns 0, because the four words are read with `from_ne_bytes` and the
wrapping arithmetic does not commute with the final `to_le` byte swap. -/
theorem c9_blake3_finish_byte_order :
    blake3_finish .le digestSample = 3
    ∧ blake3_finish .be digestSample = 0
    ∧ blake3_finish .le digestSample ≠ blake3_finish .be digestSample := by
  refine ⟨rfl, rfl, ?_⟩
  decide

/-- Claim C10: manifest validation never produces an empty patch list
(`patched_source_id` bails on one before registering); registering a
non-empty list preserves registry well-formedness; and constructing a
`PatchedSource` from any checksum found in a well-formed registry stores a
non-empty patch-path list, so the `assert!(!patch_files.is_empty())` in
`apply_patches` holds. -/
theorem c10_patch_list_nonempty :
    (∀ psu op ov sid dvl dve cue sp root cwd pn info,
      patched_source_id psu op ov sid dvl dve cue sp root cwd pn =
        .ok (some info) → info.patches ≠ [])
    ∧ (∀ (reg : PatchRegistry) (cksum : String) (paths : List FsPath),
      RegistryWF reg → paths ≠ [] → RegistryWF (register reg cksum paths))
    ∧ (∀ (reg : PatchRegistry) (sid : SourceId) (src : PatchedSource),
      RegistryWF reg → PatchedSource.new reg sid = .ok src →
      apply_patches_assert src = true) := by
  refine ⟨?_, ?_, ?_⟩
  · intro psu op ov sid dvl dve cue sp root cwd pn info h
    rcases op with _ | patches
    · simp [patched_source_id] at h
    · rcases psu with _ | ⟨url, flag⟩
      · simp [patched_source_id] at h
      · rcases flag with _ | _
        · simp [patched_source_id] at h
        · simp only [patched_source_id] at h
          split at h
          · exact absurd h (by simp)
          · split at h
            · exact absurd h (by simp)
            · split at h
              · exact absurd h (by simp)
              · split at h
                · exact absurd h (by simp)
                · rename_i hne
                  simp only [Except.ok.injEq, Option.some.injEq] at h
                  rw [← h]
                  intro hnil
                  apply hne
                  simp only [List.isEmpty_iff]
                  simpa using hnil
  · intro reg cksum paths hwf hne
    unfold register
    cases hl : get_patch_paths reg cksum with
    | some _ => exact hwf
    | none =>
      intro e he
      rcases List.mem_cons.mp he with rfl | hmem
      · exact hne
      · exact hwf e hmem
  · intro reg sid src hwf h
    unfold PatchedSource.new at h
    split at h
    · rename_i cksum heq
      cases hl : get_patch_paths reg cksum with
      | none => rw [hl] at h; exact absurd h (by simp)
      | some ps =>
        rw [hl] at h
        have hps : src.patch_paths = ps := by
          cases h
          rfl
        have hne := get_patch_paths_wf hwf hl
        simp [apply_patches_assert, hps, List.isEmpty_iff, hne]
    · exact absurd h (by simp)

/-- Witness for C10: a concrete one-entry registry is well formed, and the
source constructed from it passes the non-emptiness assertion. -/
theorem c10_patch_list_nonempty_witness :
    apply_patches_assert
      ⟨⟨.patched "cafef00d", "patched+registry+https://example.com"⟩,
        [⟨false, ["patches", "hello.patch"]⟩]⟩ = true :=
  c10_patch_list_nonempty.2.2
    [("cafef00d", [⟨false, ["patches", "hello.patch"]⟩])]
    ⟨.patched "cafef00d", "patched+registry+https://example.com"⟩
    ⟨⟨.patched "cafef00d", "patched+registry+https://example.com"⟩,
      [⟨false, ["patches", "hello.patch"]⟩]⟩
    (by intro e he; simp at he; simp [he]) rfl

end PatchedCargo
